import Mathlib

/-!
Verification of the improv-sketches GLM/LNP fitting engine.

The Python source (src/GLM/glm_jax.py, src/LNP/glm_jax.py,
src/GLM/model/CBEM_online.py) is shallowly embedded: numpy/jax 2-D arrays
become `PyMat` (an explicit shape plus a total entry function) or, where
only the values matter, plain entry functions `ℕ → ℕ → ℝ`; Python
exceptions become `Except PyErr`; real arithmetic is over `ℝ`.  Optimizer
internals and automatic differentiation are opaque library calls in the
source (jax.experimental.optimizers, jax.grad) and are abstracted as
function parameters of the embedded fit routines.
-/

/-- A numpy 2-D array: an explicit shape together with a total entry
function.  All embedded operations only read indices below `rows`/`cols`. -/
structure PyMat where
  rows : ℕ
  cols : ℕ
  entry : ℕ → ℕ → ℝ

/-- Python exceptions raised by the embedded code. -/
inductive PyErr where
  | assertionError : PyErr
  | valueError : PyErr
  | keyError : PyErr
  | attributeError : PyErr
deriving DecidableEq

/-- `onp.zeros((r, c))`. -/
def zerosM (r c : ℕ) : PyMat := { rows := r, cols := c, entry := fun _ _ => 0 }

/-- `onp.ones((r, c))`. -/
def onesM (r c : ℕ) : PyMat := { rows := r, cols := c, entry := fun _ _ => 1 }

/-- `np.concatenate((a, b), axis=0)` (rows of `a` on top). -/
def vconcat (a b : PyMat) : PyMat :=
  { rows := a.rows + b.rows, cols := a.cols,
    entry := fun i j => if i < a.rows then a.entry i j else b.entry (i - a.rows) j }

/-- `np.concatenate((a, b), axis=1)` (columns of `a` on the left). -/
def hconcatM (a b : PyMat) : PyMat :=
  { rows := a.rows, cols := a.cols + b.cols,
    entry := fun i j => if j < a.cols then a.entry i j else b.entry i (j - a.cols) }

/-- The semantics of `buf = zeros((r, c)); buf[:a.rows, :a.cols] = a`:
`a` embedded at the top-left of an `r`-by-`c` zero buffer. -/
def padTo (a : PyMat) (r c : ℕ) : PyMat :=
  { rows := r, cols := c,
    entry := fun i j => if i < a.rows ∧ j < a.cols then a.entry i j else 0 }

/-- `a[:, lo:hi]` (Python column slice, upper bound clamped to the width). -/
def sliceCols (a : PyMat) (lo hi : ℕ) : PyMat :=
  { rows := a.rows, cols := min hi a.cols - lo, entry := fun i j => a.entry i (lo + j) }

/-- `np.sum(a)` over the full shape of `a`. -/
noncomputable def matSum (a : PyMat) : ℝ :=
  ∑ i ∈ Finset.range a.rows, ∑ j ∈ Finset.range a.cols, a.entry i j

/-- The model-parameter record `p` shared by all variants
(`ds`, `dh`, `dt`, `N_lim`, `M_lim` and the regularization weights,
written `λ1`/`λ2` in the source). -/
structure GLMParams where
  ds : ℕ
  dh : ℕ
  dt : ℝ
  N_lim : ℕ
  M_lim : ℕ
  lam1 : ℝ
  lam2 : ℝ

/-- The basic-variant parameter set θ (`w`, `h`, `k`, `b`), value view:
each tensor is given by its entries (`b` is the (N,1) column, so one
index).  Shapes are fixed by `GLMParams` at every use site. -/
structure GLMTheta where
  w : ℕ → ℕ → ℝ
  h : ℕ → ℕ → ℝ
  k : ℕ → ℕ → ℝ
  b : ℕ → ℝ

/-- The basic-variant parameter set θ as shaped arrays, used by the
capacity-growth operation where shapes matter. -/
structure GLMThetaM where
  w : PyMat
  h : PyMat
  k : PyMat
  b : PyMat

/-- `GLMJax._convolve` (identical in src/GLM/glm_jax.py and
src/LNP/glm_jax.py): the causal history term.  Column `t` of the result is
zero for `t < dh` (the `np.hstack` left padding) and otherwise
`∑_{l<dh} h[:,l] * y[:, l + (t - dh)]`, i.e. it reads spike columns
`t-dh .. t-1` only. -/
noncomputable def glm_hist (p : GLMParams) (hm : ℕ → ℕ → ℝ) (y : ℕ → ℕ → ℝ) :
    ℕ → ℕ → ℝ :=
  fun i t =>
    if t < p.dh then 0
    else ∑ l ∈ Finset.range p.dh, hm i l * y i (l + (t - p.dh))

/-- The coupling term of `GLMJax._predict` / the LNP `_ll`: `w @ y`,
shifted right by one step and left-padded with `dh` zero columns
(`np.hstack((zeros(N_lim, dh), cal_weight[:, dh-1 : M_lim-1]))`).
For `dh ≥ 1`, column `t ≥ dh` of the result is `(w @ y)[:, t-1]` and
columns `t < dh` are zero. -/
noncomputable def glm_weight (p : GLMParams) (wm : ℕ → ℕ → ℝ) (y : ℕ → ℕ → ℝ) :
    ℕ → ℕ → ℝ :=
  fun i t =>
    if t < p.dh then 0
    else ∑ j ∈ Finset.range p.N_lim, wm i j * y j (t - 1)

/-- `GLMJax._predict` (src/GLM/glm_jax.py lines 190-202): log rates
`b + (k @ s + shifted w @ y + convolve(y, h)) + log(dt)`. -/
noncomputable def glm_predict (th : GLMTheta) (p : GLMParams) (y s : ℕ → ℕ → ℝ) :
    ℕ → ℕ → ℝ :=
  fun i t =>
    th.b i + ((∑ j ∈ Finset.range p.ds, th.k i j * s j t)
      + glm_weight p th.w y i t + glm_hist p th.h y i t) + Real.log p.dt

/-- `np.mean(np.abs(w))` over the full `(N_lim, N_lim)` buffer. -/
noncomputable def meanAbsW (p : GLMParams) (wm : ℕ → ℕ → ℝ) : ℝ :=
  (∑ i ∈ Finset.range p.N_lim, ∑ j ∈ Finset.range p.N_lim, |wm i j|)
    / ((p.N_lim : ℝ) * (p.N_lim : ℝ))

/-- `np.mean(w ** 2)` over the full `(N_lim, N_lim)` buffer. -/
noncomputable def meanSqW (p : GLMParams) (wm : ℕ → ℕ → ℝ) : ℝ :=
  (∑ i ∈ Finset.range p.N_lim, ∑ j ∈ Finset.range p.N_lim, (wm i j) ^ 2)
    / ((p.N_lim : ℝ) * (p.N_lim : ℝ))

/-- The data-dependent (Poisson) part of `GLMJax._ll` in
src/GLM/glm_jax.py: `(np.sum(exp(log_r) * indicator) - np.sum(y * log_r))
/ (m * n ** 2)`, sums over the full `(N_lim, M_lim)` buffers. -/
noncomputable def glm_poisson (th : GLMTheta) (p : GLMParams) (m n : ℕ)
    (y s ind : ℕ → ℕ → ℝ) : ℝ :=
  ((∑ i ∈ Finset.range p.N_lim, ∑ t ∈ Finset.range p.M_lim,
      Real.exp (glm_predict th p y s i t) * ind i t)
    - ∑ i ∈ Finset.range p.N_lim, ∑ t ∈ Finset.range p.M_lim,
        y i t * glm_predict th p y s i t)
    / ((m : ℝ) * (n : ℝ) ^ 2)

/-- `GLMJax._ll` (src/GLM/glm_jax.py lines 205-220): the indicator-masked
negative log-likelihood.  `r = exp(log_r); r *= indicator;
l1 = λ1 * mean(|w|) / n; l2 = λ2 * mean(w²) / (2n);
return (sum(r) - sum(y * log_r)) / (m * n²) + l1 + l2`. -/
noncomputable def glm_ll (th : GLMTheta) (p : GLMParams) (m n : ℕ)
    (y s ind : ℕ → ℕ → ℝ) : ℝ :=
  let logr := glm_predict th p y s
  let l1 := p.lam1 * meanAbsW p th.w / (n : ℝ)
  let l2 := p.lam2 * meanSqW p th.w / (2 * (n : ℝ))
  ((∑ i ∈ Finset.range p.N_lim, ∑ t ∈ Finset.range p.M_lim,
      Real.exp (logr i t) * ind i t)
    - ∑ i ∈ Finset.range p.N_lim, ∑ t ∈ Finset.range p.M_lim, y i t * logr i t)
    / ((m : ℝ) * (n : ℝ) ^ 2) + l1 + l2

/-- The LNP `_ll`'s linear predictor (src/LNP/glm_jax.py lines 193-199):
`b + (k @ s + shifted w @ y + convolve(y, h))`, with `log(dt)` folded into
the rate as `r = dt * exp(total)` instead of being added here.  The `[:N]`
slices in the source use `N = p['N_lim']` and are identities. -/
noncomputable def lnp_total (th : GLMTheta) (p : GLMParams) (y s : ℕ → ℕ → ℝ) :
    ℕ → ℕ → ℝ :=
  fun i t =>
    th.b i + ((∑ j ∈ Finset.range p.ds, th.k i j * s j t)
      + glm_weight p th.w y i t + glm_hist p th.h y i t)

/-- The data-dependent part of the LNP `_ll` (correction-term variant):
`(sum(r) - dt * (size(y) - curr_mn) - sum(y * log r)) / (N_lim * curr_mn)`
with `r = dt * exp(total)`.  In the real-number model every value is
finite, so the `log_r *= isfinite(log_r)` mask is the identity (the IEEE
behaviour of that mask is analysed separately with `FV` below). -/
noncomputable def lnp_poisson (th : GLMTheta) (p : GLMParams) (curr_mn : ℕ)
    (y s : ℕ → ℕ → ℝ) : ℝ :=
  ((∑ i ∈ Finset.range p.N_lim, ∑ t ∈ Finset.range p.M_lim,
      p.dt * Real.exp (lnp_total th p y s i t))
    - p.dt * (((p.N_lim * p.M_lim : ℕ) : ℝ) - (curr_mn : ℝ))
    - ∑ i ∈ Finset.range p.N_lim, ∑ t ∈ Finset.range p.M_lim,
        y i t * Real.log (p.dt * Real.exp (lnp_total th p y s i t)))
    / ((p.N_lim : ℝ) * (curr_mn : ℝ))

/-- `GLMJax._ll` of src/LNP/glm_jax.py (lines 186-210): rate
`r = dt * exp(total)`, padding correction `dt * (np.size(y) - curr_mn)`,
penalties `λ1 * mean(|w|)` and `λ2 * mean(w²)` (no `/n`, no `/2`),
normalized by `N_lim * curr_mn`. -/
noncomputable def lnp_ll (th : GLMTheta) (p : GLMParams) (curr_mn : ℕ)
    (y s : ℕ → ℕ → ℝ) : ℝ :=
  let rr : ℕ → ℕ → ℝ := fun i t => p.dt * Real.exp (lnp_total th p y s i t)
  let correction : ℝ := p.dt * (((p.N_lim * p.M_lim : ℕ) : ℝ) - (curr_mn : ℝ))
  let l1 := p.lam1 * meanAbsW p th.w
  let l2 := p.lam2 * meanSqW p th.w
  let logr : ℕ → ℕ → ℝ := fun i t => Real.log (rr i t)
  ((∑ i ∈ Finset.range p.N_lim, ∑ t ∈ Finset.range p.M_lim, rr i t) - correction
    - ∑ i ∈ Finset.range p.N_lim, ∑ t ∈ Finset.range p.M_lim, y i t * logr i t)
    / ((p.N_lim : ℝ) * (curr_mn : ℝ)) + l1 + l2

/-- Fuel-bounded form of the capacity-doubling loop
`while y.shape[0] > N_lim: N_lim *= 2`. -/
def growIter : ℕ → ℕ → ℕ → ℕ
  | 0, nl, _ => nl
  | f + 1, nl, rows => if rows ≤ nl then nl else growIter f (2 * nl) rows

/-- The neuron capacity after the growth loop has run for data with
`rows` rows.  For `nl ≥ 1` the loop terminates within `rows` doublings,
so fuel `rows` is exact; for `nl = 0` the Python loop would not terminate. -/
def growN (nl rows : ℕ) : ℕ := growIter rows nl rows

/-- `GLMJax._check_arrays` of src/GLM/glm_jax.py (lines 122-164).
Asserts `y.shape[1] == s.shape[1]` and `s.shape[0] == ds`, runs the
capacity-growth loop (only the resulting `N_lim` is modelled here; the
θ-extension it performs is `glm_grow`), defaults the indicator to
`ones(y.shape)`, and embeds `y`, `s` and the indicator into zeroed
`(N_lim, M_lim)` / `(ds, M_lim)` buffers unless `y` already has the full
shape.  A numpy block assignment with mismatched shapes (data wider than
`M_lim`, or an indicator not shaped like `y`) raises `ValueError`.
Returns `(current_M, current_N, y, s, indicator)`. -/
def glm_check_arrays (p : GLMParams) (y s : PyMat) (ind : Option PyMat) :
    Except PyErr (ℕ × ℕ × PyMat × PyMat × PyMat) :=
  if y.cols ≠ s.cols then .error .assertionError
  else if s.rows ≠ p.ds then .error .assertionError
  else
    let NL := growN p.N_lim y.rows
    let indicator := ind.getD (onesM y.rows y.cols)
    if (y.rows, y.cols) = (NL, p.M_lim) then
      .ok (y.cols, y.rows, y, s, indicator)
    else if p.M_lim < y.cols ∨ indicator.rows ≠ y.rows ∨ indicator.cols ≠ y.cols then
      .error .valueError
    else
      .ok (y.cols, y.rows, padTo y NL p.M_lim, padTo s p.ds p.M_lim,
           padTo indicator NL p.M_lim)

/-- `GLMJax._increase_θ_size` of src/GLM/glm_jax.py (lines 166-183)
(src/LNP/glm_jax.py lines 155-171 is identical): doubles `N_lim`, extends
`w` with zero blocks on both axes and `h`, `b`, `k` with zero rows. -/
def glm_grow (p : GLMParams) (th : GLMThetaM) : GLMParams × GLMThetaM :=
  let N := p.N_lim
  ({ p with N_lim := 2 * N },
   { w := vconcat (hconcatM th.w (zerosM N N)) (zerosM N (2 * N)),
     h := vconcat th.h (zerosM N p.dh),
     b := vconcat th.b (zerosM N 1),
     k := vconcat th.k (zerosM N p.ds) })

/-- Keys of the string-keyed θ dictionaries.  The Python dictionaries are
keyed by the strings "w", "h", "k", "b", "ke", "ki", "be", "bi"; the
finite key set is embedded as an inductive type. -/
inductive ThetaKey where
  | w : ThetaKey
  | h : ThetaKey
  | k : ThetaKey
  | b : ThetaKey
  | ke : ThetaKey
  | ki : ThetaKey
  | be : ThetaKey
  | bi : ThetaKey
deriving DecidableEq

/-- A Python dict of named arrays. -/
abbrev PyDict : Type := List (ThetaKey × PyMat)

/-- `d[key]`: raises `KeyError` when the key is absent. -/
def dictGet (d : PyDict) (key : ThetaKey) : Except PyErr PyMat :=
  match List.find? (fun kv => kv.1 == key) d with
  | some kv => .ok kv.2
  | none => .error .keyError

/-- `d[key] = v`: replaces the binding or appends a new one. -/
def dictSet (d : PyDict) (key : ThetaKey) (v : PyMat) : PyDict :=
  if List.any d (fun kv => kv.1 == key) then
    List.map (fun kv => if kv.1 == key then (key, v) else kv) d
  else d ++ [(key, v)]

/-- `GLMJax._increase_θ_size` of src/GLM/model/CBEM_online.py
(lines 183-199): extends `θ['h']`, then builds `θ['be']` and `θ['bi']`
from `θ['b']` and `θ['ke']`, `θ['ki']` from `θ['k']` — keys that the
conductance-based θ (which holds `ke`, `ki`, `be`, `bi`, `h` only) does
not contain, so the lookups raise `KeyError`. -/
def cbem_increase (p : GLMParams) (d : PyDict) : Except PyErr (GLMParams × PyDict) := do
  let hv ← dictGet d ThetaKey.h
  let d1 := dictSet d ThetaKey.h (vconcat hv (zerosM p.N_lim p.dh))
  let bv ← dictGet d1 ThetaKey.b
  let d2 := dictSet d1 ThetaKey.be (vconcat bv (zerosM p.N_lim 1))
  let kv ← dictGet d2 ThetaKey.k
  let d3 := dictSet d2 ThetaKey.ke (vconcat kv (zerosM p.N_lim p.ds))
  let bv2 ← dictGet d3 ThetaKey.b
  let d4 := dictSet d3 ThetaKey.bi (vconcat bv2 (zerosM p.N_lim 1))
  let kv2 ← dictGet d4 ThetaKey.k
  let d5 := dictSet d4 ThetaKey.ki (vconcat kv2 (zerosM p.N_lim p.ds))
  pure ({ p with N_lim := 2 * p.N_lim }, d5)

/-- `GLMJax._check_arrays` of src/GLM/model/CBEM_online.py (lines 98-118).
The shape asserts are commented out in the source; no padding is
performed; the `indicator` argument is ignored and replaced by
`onp.zeros((N_lim, y.shape[1]))`.  The growth loop is as in the basic
variant (not re-modelled; every use below has `y.rows ≤ N_lim`).
Returns `(current_M, current_N, y, s, indicator)`. -/
def cbem_check_arrays (p : GLMParams) (y s : PyMat) :
    ℕ × ℕ × PyMat × PyMat × PyMat :=
  (y.cols, y.rows, y, s, zerosM p.N_lim y.cols)

/-- Mutable state of the LNP `GLMJax` (src/LNP/glm_jax.py).  The optimizer
state `self._θ` is opaque (type parameter `O`); `ydata`/`sdata` model
`self.y`/`self.s`, which exist only when offline data were supplied
(`none` = attribute not defined, so reading it raises `AttributeError`);
`rand` models `self.rand` as the already-drawn sequence of random offsets. -/
structure LNPState (O : Type) where
  p : GLMParams
  thState : O
  offline : Bool
  ydata : Option PyMat
  sdata : Option PyMat
  rand : ℕ → ℕ
  iter : ℕ
  current_N : ℕ
  current_M : ℕ

/-- `GLMJax._check_arrays` of src/LNP/glm_jax.py (lines 122-153): asserts,
shape recording, growth loop, row padding of `y` to `N_lim`, column
padding of `y` and `s` to `M_lim`, width check — and `self.iter += 1`
(line 152).  Returns the updated state with
`(current_M * current_N, y, s)`. -/
def lnp_check_arraysSt {O : Type} (st : LNPState O) (y s : PyMat) :
    Except PyErr (LNPState O × ℕ × PyMat × PyMat) :=
  if y.cols ≠ s.cols then .error .assertionError
  else if s.rows ≠ st.p.ds then .error .assertionError
  else
    let NL := growN st.p.N_lim y.rows
    let y1 := if y.rows < NL then vconcat y (zerosM (NL - y.rows) y.cols) else y
    let y2 := if y1.cols < st.p.M_lim
      then hconcatM y1 (zerosM NL (st.p.M_lim - y1.cols)) else y1
    let s2 := if y1.cols < st.p.M_lim
      then hconcatM s (zerosM st.p.ds (st.p.M_lim - y1.cols)) else s
    let pGrown : GLMParams := { st.p with N_lim := NL }
    if st.p.M_lim < y2.cols then .error .valueError
    else .ok ({ st with
                  p := pGrown,
                  iter := st.iter + 1,
                  current_N := y.rows,
                  current_M := y.cols },
              y.cols * y.rows, y2, s2)

/-- `GLMJax.__init__` of src/LNP/glm_jax.py, state part: `self.offline`
is set from `offline_data`, and `self.y`, `self.s` exist only in the
offline case; `iter`, `current_N`, `current_M` start at 0. -/
def lnp_init {O : Type} (p : GLMParams) (th0 : O)
    (offline_data : Option (PyMat × PyMat)) : LNPState O :=
  { p := p, thState := th0, offline := offline_data.isSome,
    ydata := Option.map Prod.fst offline_data,
    sdata := Option.map Prod.snd offline_data,
    rand := fun _ => 0, iter := 0, current_N := 0, current_M := 0 }

/-- The offline branch of the LNP `fit`: a random slice of width `M_lim`
of the held data, one gradient step, `iter += 1`. -/
def lnp_fit_offline {O : Type} (gradStep : O → ℕ → ℕ × PyMat × PyMat → O)
    (st1 : LNPState O) : Except PyErr (LNPState O) :=
  match st1.ydata, st1.sdata with
  | some yd, some sd =>
    let i := st1.rand (st1.iter % 10000)
    let args := (st1.p.N_lim * st1.p.M_lim,
                 sliceCols yd i (i + st1.p.M_lim),
                 sliceCols sd i (i + st1.p.M_lim))
    .ok { st1 with thState := gradStep st1.thState st1.iter args,
                   iter := st1.iter + 1 }
  | _, _ => .error .attributeError

/-- The online (`not offline`) branch of the LNP `fit`: data go through
`_check_arrays` (which itself advances `iter`), then one gradient step
with `opt_update(self.iter, ...)` — `self.iter` already advanced — and a
second `self.iter += 1`. -/
def lnp_fit_online {O : Type} (gradStep : O → ℕ → ℕ × PyMat × PyMat → O)
    (st1 : LNPState O) (y s : PyMat) : Except PyErr (LNPState O) :=
  match lnp_check_arraysSt st1 y s with
  | .error e => .error e
  | .ok (st2, mn, y2, s2) =>
    .ok { st2 with thState := gradStep st2.thState st2.iter (mn, y2, s2),
                   iter := st2.iter + 1 }

/-- `GLMJax.fit` of src/LNP/glm_jax.py (lines 92-117).  Every 10000-th
iteration the random-offset batch is regenerated from `self.y`
unconditionally (before the offline/online branch) — reading `self.y`
raises `AttributeError` when no offline data were supplied.  `newRand` is
the freshly drawn batch; `gradStep` abstracts
`jit(opt_update)(self.iter, grad(_ll)(θ, p, *args), self._θ)` as a
function of the optimizer state, the `iter` value passed to `opt_update`,
and the data arguments. -/
def lnp_fit {O : Type} (newRand : ℕ → ℕ)
    (gradStep : O → ℕ → ℕ × PyMat × PyMat → O)
    (st : LNPState O) (y s : PyMat) : Except PyErr (LNPState O) :=
  match (if st.iter % 10000 = 0 then
          match st.ydata with
          | none => .error .attributeError
          | some _ => .ok { st with rand := newRand }
         else .ok st : Except PyErr (LNPState O)) with
  | .error e => .error e
  | .ok st1 =>
    if st1.offline then lnp_fit_offline gradStep st1
    else lnp_fit_online gradStep st1 y s

/-- The loop body of `GLMJax._fit` of src/GLM/glm_jax.py (lines 105-111):
`for i in range(rpf): Δ = grad(_ll)(get_params(θ), ...); θ = opt_update(iter,
Δ, θ)` — the same `iter` and data every round, the gradient taken at the
current θ.  `step` abstracts one `opt_update∘grad` round. -/
def glm_fit_steps {O : Type} (step : O → O) : ℕ → O → O
  | 0, th => th
  | r + 1, th => glm_fit_steps step r (step th)

/-- Mutable state of `GLMJaxSynthetic` (src/GLM/glm_jax.py lines 249-308).
Data are held by the object (`self.y`, `self.s` always exist here). -/
structure GLMSynState (O : Type) where
  p : GLMParams
  thState : O
  offline : Bool
  ydata : PyMat
  sdata : PyMat
  rand : ℕ → ℕ
  rpf : ℕ
  iter : ℕ
  current_N : ℕ
  current_M : ℕ

/-- The argument-selection part of `GLMJaxSynthetic.fit` (lines 278-297):
offline random slice (regenerating the batch every 10000 iterations),
growing window (`iter < M_lim`, through `_check_arrays`), or sliding
window of width `M_lim` with indicator defaulting to `self.ones`.
Returns the args tuple and the state updated by this phase
(`rand`, `current_N`, `current_M`; `iter` untouched). -/
def glm_syn_args {O : Type} (newRand : ℕ → ℕ) (st : GLMSynState O)
    (ind : Option PyMat) :
    Except PyErr ((ℕ × ℕ × PyMat × PyMat × PyMat) × GLMSynState O) :=
  if st.offline then
    let st1 := if st.iter % 10000 = 0 then { st with rand := newRand } else st
    let i := st1.rand (st1.iter % 10000)
    .ok ((st1.p.M_lim, st1.p.N_lim,
          sliceCols st1.ydata i (i + st1.p.M_lim),
          sliceCols st1.sdata i (i + st1.p.M_lim),
          onesM st1.p.N_lim st1.p.M_lim), st1)
  else
    if st.iter < st.p.M_lim then
      let ystep := sliceCols st.ydata 0 (st.iter + 1)
      let sstep := sliceCols st.sdata 0 (st.iter + 1)
      match glm_check_arrays st.p ystep sstep ind with
      | .error e => .error e
      | .ok args =>
        .ok (args, { st with current_N := ystep.rows, current_M := ystep.cols })
    else
      .ok ((st.p.M_lim, st.p.N_lim,
            sliceCols st.ydata (st.iter - st.p.M_lim) st.iter,
            sliceCols st.sdata (st.iter - st.p.M_lim) st.iter,
            ind.getD (onesM st.p.N_lim st.p.M_lim)), st)

/-- `GLMJaxSynthetic.fit` (src/GLM/glm_jax.py lines 276-308): select args,
then either `_fit_ll` (one gradient round, returning the likelihood) or
`_fit` (`rpf` gradient rounds), then `self.iter += 1`.  `stepOf args iter`
abstracts one `opt_update(iter, grad(_ll)(get_params(θ), p, *args), θ)`
round. -/
def glm_syn_fit {O : Type} (newRand : ℕ → ℕ)
    (stepOf : (ℕ × ℕ × PyMat × PyMat × PyMat) → ℕ → O → O)
    (return_ll : Bool) (st : GLMSynState O) (ind : Option PyMat) :
    Except PyErr (GLMSynState O) :=
  match glm_syn_args newRand st ind with
  | .error e => .error e
  | .ok (args, st2) =>
    .ok { st2 with
          thState := if return_ll then stepOf args st2.iter st2.thState
                     else glm_fit_steps (stepOf args st2.iter) st2.rpf st2.thState,
          iter := st2.iter + 1 }

/-- Mutable state of the base-class `GLMJax` of src/GLM/glm_jax.py. -/
structure GLMBaseState (O : Type) where
  p : GLMParams
  thState : O
  rpf : ℕ
  iter : ℕ
  current_N : ℕ
  current_M : ℕ

/-- `GLMJax.fit` of src/GLM/glm_jax.py (lines 89-96).  `_check_arrays`
runs first (its asserts may raise; on success it records the current
shape).  The static `_fit_ll` then returns the pair `(θ, ll)`, which the
caller unpacks into the three targets `self._θ, self.iter, ll`; `_fit`
returns the single `OptimizerState` — a 3-field named tuple
`(packed_state, tree_def, subtree_defs)` — which the caller unpacks into
the two targets `self._θ, self.iter`.  Both unpackings raise `ValueError`
(wrong number of values), so neither `self._θ` nor `self.iter` is ever
assigned through this entry point.  The result is the state as mutated up
to the raise, paired with the raised exception. -/
def glm_base_fit {O : Type} (return_ll : Bool) (st : GLMBaseState O)
    (y s : PyMat) (ind : Option PyMat) : GLMBaseState O × Except PyErr Unit :=
  if y.cols ≠ s.cols then (st, .error .assertionError)
  else if s.rows ≠ st.p.ds then (st, .error .assertionError)
  else
    let st1 : GLMBaseState O :=
      { st with current_N := y.rows, current_M := y.cols }
    match glm_check_arrays st.p y s ind with
    | .error e => (st1, .error e)
    | .ok _ =>
      -- tuple-arity mismatch in `self._θ, self.iter, ll = _fit_ll(...)` /
      -- `self._θ, self.iter = _fit(...)`: always ValueError, whichever
      -- branch `return_ll` selects.
      (st1, .error .valueError)

/-- The conductance-based θ of src/GLM/model/CBEM_online.py:
`ke`, `ki` are `(N, ds)` filters, `be`, `bi` are `(N, 1)` biases and `h`
is the per-neuron spike-history weight (a 1-D array in the driver code). -/
structure CbemTheta where
  ke : ℕ → ℕ → ℝ
  ki : ℕ → ℕ → ℝ
  be : ℕ → ℝ
  bi : ℕ → ℝ
  h : ℕ → ℝ

/-- `np.log(1 + np.exp(x))`, the conductance nonlinearity. -/
noncomputable def softplus (x : ℝ) : ℝ := Real.log (1 + Real.exp x)

/-- One membrane-potential update of `GLMJax._fit` of
src/GLM/model/CBEM_online.py (lines 156-174): with
`ge = softplus(ke @ s + be)`, `gi = softplus(ki @ s + bi)`,
`gtot = gl + ge + gi`, `Itot = gl*El + ge*Ee + gi*Ei`
(`gl = 0.5`, `El = -60`, `Ee = 0`, `Ei = -80`), column 0 of the window:
`V = exp(-dt * gtot[:,0]) * (V - Itot[:,0]/gtot[:,0]) + Itot[:,0]/gtot[:,0]`.
(The `cal_hist` computed alongside is never used in `_fit`.) -/
noncomputable def cbem_v_step (p : GLMParams) (th : CbemTheta) (s : ℕ → ℕ → ℝ)
    (V : ℕ → ℝ) : ℕ → ℝ :=
  fun i =>
    let ge := softplus ((∑ j ∈ Finset.range p.ds, th.ke i j * s j 0) + th.be i)
    let gi := softplus ((∑ j ∈ Finset.range p.ds, th.ki i j * s j 0) + th.bi i)
    let gtot := 0.5 + ge + gi
    let Itot := 0.5 * (-60) + ge * 0 + gi * (-80)
    Real.exp (-p.dt * gtot) * (V i - Itot / gtot) + Itot / gtot

/-- One round of the `rpf` loop of `GLMJax._fit` (CBEM): for a window
narrower than 10 columns the membrane potential is reset to the constant
`-60` vector (`V = np.ones(N_lim) * -60`); otherwise it advances by one
conductance step computed from the current θ. -/
noncomputable def cbem_fit_step (p : GLMParams) (th : CbemTheta) (s : ℕ → ℕ → ℝ)
    (ycols : ℕ) (V : ℕ → ℝ) : ℕ → ℝ :=
  if ycols < 10 then fun _ => (-60 : ℝ) else cbem_v_step p th s V

/-- The `for i in range(rpf)` loop of `GLMJax._fit` (CBEM, lines 149-176):
each round computes `Δ = grad(_ll)(get_params(θ), ..., V, ycurr, ...)` and
`opt_update(iter, Δ, θ)` (abstracted as `optStep θ V`), and rewrites `V`
from the pre-update θ (`theta = get_params(θ)` is read before
`opt_update`). -/
noncomputable def cbem_fit_loop {O : Type} (p : GLMParams)
    (optStep : O → (ℕ → ℝ) → O) (getP : O → CbemTheta) (s : ℕ → ℕ → ℝ)
    (ycols : ℕ) : ℕ → O → (ℕ → ℝ) → O × (ℕ → ℝ)
  | 0, th, V => (th, V)
  | r + 1, th, V =>
    cbem_fit_loop p optStep getP s ycols r (optStep th V)
      (cbem_fit_step p (getP th) s ycols V)

/-- `GLMJax.fit`/`_fit` of src/GLM/model/CBEM_online.py (lines 124-137 and
146-178), `return_ll=False` branch: runs the `rpf` loop and returns the
updated optimizer state, the updated membrane potential, and `y[:, 0]` —
the FIRST column of the supplied window (the `ycurr` argument only enters
the abstracted gradient; `iter += 1` happens in the caller `fit`). -/
noncomputable def cbem_fit {O : Type} (p : GLMParams)
    (optStep : O → (ℕ → ℝ) → O) (getP : O → CbemTheta) (rpf : ℕ) (th : O)
    (y s : PyMat) (V ycurr : ℕ → ℝ) : O × (ℕ → ℝ) × (ℕ → ℝ) :=
  ((cbem_fit_loop p optStep getP s.entry y.cols rpf th V).1,
   (cbem_fit_loop p optStep getP s.entry y.cols rpf th V).2,
   fun i => y.entry i 0)

/-- IEEE-754 double values as produced by the numpy operations in
`GLMJax._ll` of src/LNP/glm_jax.py: a float is NaN, +∞, -∞ or a finite
value (payload kept as a rational). -/
inductive FV where
  | nan : FV
  | pinf : FV
  | ninf : FV
  | fin : ℚ → FV
deriving DecidableEq

/-- `np.isfinite`. -/
def FV.isFiniteV : FV → Bool
  | .fin _ => true
  | _ => false

/-- IEEE-754 multiplication on special values: NaN propagates and
`±∞ * 0 = NaN`. -/
def FV.mulV : FV → FV → FV
  | .nan, _ => .nan
  | _, .nan => .nan
  | .fin x, .fin y => .fin (x * y)
  | .pinf, .fin x => if x = 0 then .nan else if 0 < x then .pinf else .ninf
  | .ninf, .fin x => if x = 0 then .nan else if 0 < x then .ninf else .pinf
  | .fin x, .pinf => if x = 0 then .nan else if 0 < x then .pinf else .ninf
  | .fin x, .ninf => if x = 0 then .nan else if 0 < x then .ninf else .pinf
  | .pinf, .pinf => .pinf
  | .pinf, .ninf => .ninf
  | .ninf, .pinf => .ninf
  | .ninf, .ninf => .pinf

/-- IEEE-754 addition on special values: NaN propagates and `∞ + (-∞) = NaN`. -/
def FV.addV : FV → FV → FV
  | .nan, _ => .nan
  | _, .nan => .nan
  | .fin x, .fin y => .fin (x + y)
  | .pinf, .ninf => .nan
  | .ninf, .pinf => .nan
  | .pinf, _ => .pinf
  | _, .pinf => .pinf
  | .ninf, _ => .ninf
  | _, .ninf => .ninf

/-- `np.log` on IEEE doubles: `log 0 = -∞` (numpy emits a warning but
returns `-inf`), `log x = NaN` for `x < 0`; `logPos` supplies the finite
value for positive finite inputs. -/
def fvLog (logPos : ℚ → ℚ) : FV → FV
  | .fin x => if x = 0 then .ninf else if x < 0 then .nan else .fin (logPos x)
  | .pinf => .pinf
  | .ninf => .nan
  | .nan => .nan

/-- `log_r *= np.isfinite(log_r)` (src/LNP/glm_jax.py lines 207-208):
elementwise multiplication by the 0/1 cast of the isfinite mask. -/
def maskNonfinite (x : FV) : FV :=
  FV.mulV x (if x.isFiniteV then .fin 1 else .fin 0)

/-- `np.sum` over IEEE doubles (left fold of IEEE addition). -/
def fvSum (l : List FV) : FV := List.foldl FV.addV (.fin 0) l

/-- The all-zero entry function. -/
def zf : ℕ → ℕ → ℝ := fun _ _ => 0

/-- Concrete parameters: `ds=1, dh=1, dt=1, N_lim=2, M_lim=3`, no penalties. -/
def p1 : GLMParams :=
  { ds := 1, dh := 1, dt := 1, N_lim := 2, M_lim := 3, lam1 := 0, lam2 := 0 }

/-- A 1-by-1 spike matrix `[[4]]`. -/
def y1 : PyMat := { rows := 1, cols := 1, entry := fun _ _ => 4 }

/-- A 1-by-1 stimulus matrix `[[2]]`. -/
def s1 : PyMat := { rows := 1, cols := 1, entry := fun _ _ => 2 }

/-- Concrete parameters with `N_lim = 1` (for capacity growth). -/
def p2 : GLMParams :=
  { ds := 1, dh := 1, dt := 1, N_lim := 1, M_lim := 3, lam1 := 0, lam2 := 0 }

/-- A 1-by-1 matrix `[[1]]`. -/
def mA : PyMat := { rows := 1, cols := 1, entry := fun _ _ => 1 }

/-- A 1-by-1 matrix `[[3]]`. -/
def mB : PyMat := { rows := 1, cols := 1, entry := fun _ _ => 3 }

/-- A conductance-based θ dictionary with exactly the keys the CBEM
constructor checks for: `ke`, `ki`, `be`, `bi`, `h` (and no `b`, no `k`). -/
def cbemDict0 : PyDict :=
  [(ThetaKey.ke, mA), (ThetaKey.ki, mA), (ThetaKey.be, mB),
   (ThetaKey.bi, mB), (ThetaKey.h, mA)]

/-- A concrete basic-variant θ with `N_lim = 1` shapes. -/
def thM0 : GLMThetaM := { w := mA, h := mB, k := mA, b := mB }

/-- The all-zero basic θ. -/
def th0 : GLMTheta := { w := zf, h := zf, k := zf, b := fun _ => 0 }

/-- A basic θ whose only nonzero entry is `w[0,0] = 1`. -/
def thW : GLMTheta :=
  { w := fun i j => if i = 0 ∧ j = 0 then 1 else 0,
    h := zf, k := zf, b := fun _ => 0 }

/-- Small-buffer parameters (`N_lim = 1, M_lim = 1`) with `λ1 = 1`. -/
def pS4 : GLMParams :=
  { ds := 1, dh := 1, dt := 1, N_lim := 1, M_lim := 1, lam1 := 1, lam2 := 0 }

/-- The same model with a doubled neuron buffer (`N_lim = 2`). -/
def pB4 : GLMParams :=
  { ds := 1, dh := 1, dt := 1, N_lim := 2, M_lim := 1, lam1 := 1, lam2 := 0 }

/-- A data matrix that agrees with `zf` on column 0 and differs afterwards. -/
def yFut : ℕ → ℕ → ℝ := fun _ u => if u = 0 then 0 else 99

/-- A 1-by-2 spike window whose first column is 5 and last column is 7. -/
def y7 : PyMat := { rows := 1, cols := 2, entry := fun _ t => if t = 0 then 5 else 7 }

/-- A 1-by-2 zero stimulus window. -/
def s7 : PyMat := { rows := 1, cols := 2, entry := fun _ _ => 0 }

/-- The all-zero conductance θ. -/
def cbemTh0 : CbemTheta :=
  { ke := zf, ki := zf, be := fun _ => 0, bi := fun _ => 0, h := fun _ => 0 }

/-- Parameters for the concrete LNP runs: `ds = N_lim = M_lim = 1`. -/
def p5 : GLMParams :=
  { ds := 1, dh := 1, dt := 1, N_lim := 1, M_lim := 1, lam1 := 0, lam2 := 0 }

/-- A concrete online (no offline data) LNP state at `iter = 1`. -/
def st5 : LNPState Unit :=
  { p := p5, thState := (), offline := false, ydata := none, sdata := none,
    rand := fun _ => 0, iter := 1, current_N := 0, current_M := 0 }

/-- The state produced by one online `fit` from `st5`: `iter` has advanced
by two (once inside `_check_arrays`, once in `fit`). -/
def st5After : LNPState Unit :=
  { p := p5, thState := (), offline := false, ydata := none, sdata := none,
    rand := fun _ => 0, iter := 3, current_N := 1, current_M := 1 }

/-- A concrete base-class GLM state. -/
def st9 : GLMBaseState Unit :=
  { p := p1, thState := (), rpf := 1, iter := 6, current_N := 0, current_M := 0 }

/-- Claim C1 (code-bug evidence).  On a 1-by-1 input with `N_lim = 2`,
`M_lim = 3` and no indicator: the basic-variant `_check_arrays`
(src/GLM/glm_jax.py) returns `y` and the indicator embedded into
`(N_lim, M_lim)` buffers and `s` into `(ds, M_lim)`, with the indicator
summing to `h*w = 1` — exactly as the claim states; the CBEM variant
(src/GLM/model/CBEM_online.py), whose docstring promises the same
behaviour, instead returns `y` unpadded and an all-zero indicator of shape
`(N_lim, y.cols) = (2, 1)` summing to 0. -/
theorem c1_shape_normalizer :
    glm_check_arrays p1 y1 s1 none
        = .ok (1, 1, padTo y1 2 3, padTo s1 1 3, padTo (onesM 1 1) 2 3)
    ∧ (padTo y1 2 3).rows = 2 ∧ (padTo y1 2 3).cols = 3
    ∧ (padTo s1 1 3).rows = 1 ∧ (padTo s1 1 3).cols = 3
    ∧ (padTo (onesM 1 1) 2 3).rows = 2 ∧ (padTo (onesM 1 1) 2 3).cols = 3
    ∧ matSum (padTo (onesM 1 1) 2 3) = 1
    ∧ (padTo y1 2 3).entry 0 0 = 4
    ∧ (padTo y1 2 3).entry 0 1 = 0
    ∧ (padTo y1 2 3).entry 1 0 = 0
    ∧ (cbem_check_arrays p1 y1 s1).2.2.2.2.rows = 2
    ∧ (cbem_check_arrays p1 y1 s1).2.2.2.2.cols = 1
    ∧ matSum (cbem_check_arrays p1 y1 s1).2.2.2.2 = 0
    ∧ (cbem_check_arrays p1 y1 s1).2.2.1 = y1 := by
  refine ⟨rfl, rfl, rfl, rfl, rfl, rfl, rfl, ?_, ?_, ?_, ?_, rfl, rfl, ?_, rfl⟩
  · simp [matSum, padTo, onesM, Finset.sum_range_succ]
  · simp [padTo, y1]
  · simp [padTo, y1]
  · simp [padTo, y1]
  · simp [matSum, cbem_check_arrays, zerosM, p1, y1, Finset.sum_range_succ]

/-- Claim C2 (code-bug evidence).  The basic-variant `_increase_θ_size`
(src/GLM/glm_jax.py; src/LNP/glm_jax.py is identical) doubles `N_lim` and
zero-extends every tensor so that slicing back to the original `N_lim`
recovers θ exactly and every new entry is zero; the CBEM variant
(src/GLM/model/CBEM_online.py) reads `θ['b']` — a key the conductance θ
does not contain — and raises `KeyError` on every conductance θ. -/
theorem c2_capacity_growth :
    (∀ (p : GLMParams) (th : GLMThetaM),
      th.w.rows = p.N_lim → th.w.cols = p.N_lim → th.h.rows = p.N_lim →
      th.k.rows = p.N_lim → th.b.rows = p.N_lim →
      ((glm_grow p th).1.N_lim = 2 * p.N_lim
        ∧ (glm_grow p th).2.w.rows = 2 * p.N_lim
        ∧ (glm_grow p th).2.w.cols = 2 * p.N_lim
        ∧ (glm_grow p th).2.h.rows = 2 * p.N_lim
        ∧ (glm_grow p th).2.h.cols = th.h.cols
        ∧ (glm_grow p th).2.k.rows = 2 * p.N_lim
        ∧ (glm_grow p th).2.b.rows = 2 * p.N_lim
        ∧ (∀ i j, i < p.N_lim → j < p.N_lim →
            (glm_grow p th).2.w.entry i j = th.w.entry i j)
        ∧ (∀ i j, i < 2 * p.N_lim → j < 2 * p.N_lim →
            p.N_lim ≤ i ∨ p.N_lim ≤ j → (glm_grow p th).2.w.entry i j = 0)
        ∧ (∀ i j, i < p.N_lim → (glm_grow p th).2.h.entry i j = th.h.entry i j)
        ∧ (∀ i j, p.N_lim ≤ i → (glm_grow p th).2.h.entry i j = 0)
        ∧ (∀ i j, i < p.N_lim → (glm_grow p th).2.k.entry i j = th.k.entry i j)
        ∧ (∀ i j, p.N_lim ≤ i → (glm_grow p th).2.k.entry i j = 0)
        ∧ (∀ i j, i < p.N_lim → (glm_grow p th).2.b.entry i j = th.b.entry i j)
        ∧ (∀ i j, p.N_lim ≤ i → (glm_grow p th).2.b.entry i j = 0)))
    ∧ cbem_increase p2 cbemDict0 = .error .keyError := by
  constructor
  · intro p th hw1 hw2 hh hk hb
    refine ⟨rfl, ?_, ?_, ?_, ?_, ?_, ?_, ?_, ?_, ?_, ?_, ?_, ?_, ?_, ?_⟩
    · simp only [glm_grow, vconcat, hconcatM, zerosM]; omega
    · simp only [glm_grow, vconcat, hconcatM, zerosM]; omega
    · simp only [glm_grow, vconcat, zerosM]; omega
    · simp only [glm_grow, vconcat, zerosM]
    · simp only [glm_grow, vconcat, zerosM]; omega
    · simp only [glm_grow, vconcat, zerosM]; omega
    · intro i j hi hj
      simp only [glm_grow, vconcat, hconcatM, zerosM]
      rw [if_pos (by omega), if_pos (by omega)]
    · intro i j hi hj hor
      simp only [glm_grow, vconcat, hconcatM, zerosM]
      rcases hor with hori | horj
      · rw [if_neg (by omega)]
      · by_cases hcase : i < th.w.rows
        · rw [if_pos hcase, if_neg (by omega)]
        · rw [if_neg hcase]
    · intro i j hi
      simp only [glm_grow, vconcat, zerosM]
      rw [if_pos (by omega)]
    · intro i j hi
      simp only [glm_grow, vconcat, zerosM]
      rw [if_neg (by omega)]
    · intro i j hi
      simp only [glm_grow, vconcat, zerosM]
      rw [if_pos (by omega)]
    · intro i j hi
      simp only [glm_grow, vconcat, zerosM]
      rw [if_neg (by omega)]
    · intro i j hi
      simp only [glm_grow, vconcat, zerosM]
      rw [if_pos (by omega)]
    · intro i j hi
      simp only [glm_grow, vconcat, zerosM]
      rw [if_neg (by omega)]
  · rfl

/-- Witness for C2: the growth contract instantiated at a concrete
one-neuron θ. -/
theorem c2_capacity_growth_witness :
    (glm_grow p2 thM0).1.N_lim = 2 * p2.N_lim :=
  (c2_capacity_growth.1 p2 thM0 rfl rfl rfl rfl rfl).1

/-- Claim C8 (code-bug evidence).  Under IEEE-754 semantics the masking
idiom `log_r *= np.isfinite(log_r)` of src/LNP/glm_jax.py does NOT zero a
non-finite log-rate: for a zero rate entry, `np.log(0) = -∞` and
`(-∞) * 0 = NaN`, which then propagates through `np.sum` into the
returned scalar instead of being zeroed. -/
theorem c8_isfinite_mask_not_zeroing (logPos : ℚ → ℚ) :
    fvLog logPos (.fin 0) = .ninf
    ∧ maskNonfinite (fvLog logPos (.fin 0)) = .nan
    ∧ FV.nan ≠ FV.fin 0
    ∧ fvSum [.fin 1, maskNonfinite (fvLog logPos (.fin 0))] = .nan := by
  refine ⟨rfl, rfl, ?_, rfl⟩
  intro h
  exact FV.noConfusion h

/-- Claim C9.  Every call of the base-class `GLMJax.fit` of
src/GLM/glm_jax.py raises: either an assertion in `_check_arrays` fails,
or the tuple unpacking of the `_fit_ll`/`_fit` result fails with
`ValueError` (two values into three targets with `return_ll=True`, the
3-field `OptimizerState` into two targets with `return_ll=False`).  In
particular `iter` and the optimizer state are never updated, and on
shape-valid inputs the raised exception is exactly the unpacking
`ValueError`. -/
theorem c9_base_fit_always_raises {O : Type} (return_ll : Bool)
    (st : GLMBaseState O) (y s : PyMat) (ind : Option PyMat) :
    (∃ e, (glm_base_fit return_ll st y s ind).2 = .error e)
    ∧ (glm_base_fit return_ll st y s ind).1.iter = st.iter
    ∧ (glm_base_fit return_ll st y s ind).1.thState = st.thState
    ∧ (ind = none → y.cols = s.cols → s.rows = st.p.ds → y.cols ≤ st.p.M_lim →
        (glm_base_fit return_ll st y s ind).2 = .error .valueError) := by
  refine ⟨?_, ?_, ?_, ?_⟩
  · unfold glm_base_fit
    split
    · exact ⟨_, rfl⟩
    · split
      · exact ⟨_, rfl⟩
      · split
        · exact ⟨_, rfl⟩
        · exact ⟨_, rfl⟩
  · unfold glm_base_fit
    split
    · rfl
    · split
      · rfl
      · split
        · rfl
        · rfl
  · unfold glm_base_fit
    split
    · rfl
    · split
      · rfl
      · split
        · rfl
        · rfl
  · intro h0 h1 h2 h3
    subst h0
    have hck : ∃ r, glm_check_arrays st.p y s none = .ok r := by
      unfold glm_check_arrays
      rw [if_neg (by simp [h1]), if_neg (by simp [h2])]
      simp only [Option.getD_none]
      split
      · exact ⟨_, rfl⟩
      · rw [if_neg ?_]
        · exact ⟨_, rfl⟩
        · simp only [onesM, not_or, not_lt]
          exact ⟨h3, by simp, by simp⟩
    obtain ⟨r, hr⟩ := hck
    unfold glm_base_fit
    rw [if_neg (by simp [h1]), if_neg (by simp [h2]), hr]

/-- Witness for C9: the base-class fit at a concrete shape-valid input
raises the unpacking `ValueError`. -/
theorem c9_base_fit_always_raises_witness :
    (glm_base_fit false st9 y1 s1 none).2 = .error .valueError :=
  (c9_base_fit_always_raises false st9 y1 s1 none).2.2.2 rfl rfl rfl
    (by norm_num [y1, st9, p1])

/-- Claim C10.  In the LNP variant constructed without offline data,
`self.y` is never defined, and `fit` reads it unconditionally whenever
`iter % 10000 == 0` (in particular on the very first call), raising
`AttributeError`. -/
theorem c10_missing_offline_data {O : Type} (newRand : ℕ → ℕ)
    (gradStep : O → ℕ → ℕ × PyMat × PyMat → O) :
    (∀ (p : GLMParams) (th0v : O) (y s : PyMat),
        lnp_fit newRand gradStep (lnp_init p th0v none) y s
          = .error .attributeError)
    ∧ (∀ (st : LNPState O) (y s : PyMat), st.ydata = none →
        st.iter % 10000 = 0 →
        lnp_fit newRand gradStep st y s = .error .attributeError) := by
  constructor
  · intro p th0v y s
    rfl
  · intro st y s hnone hiter
    unfold lnp_fit
    rw [if_pos hiter, hnone]

/-- Witness for C10: a freshly constructed online LNP model raises
`AttributeError` on its first fit call. -/
theorem c10_missing_offline_data_witness :
    lnp_fit (fun _ => 0) (fun (_ : Unit) _ _ => ()) (lnp_init p5 () none) y1 s1
      = .error .attributeError :=
  (c10_missing_offline_data (fun _ => 0) (fun (_ : Unit) _ _ => ())).2
    (lnp_init p5 () none) y1 s1 rfl rfl

/-- Claim C3.  The predicted log-rate is strictly causal: if two input
pairs agree on all columns with index `≤ t`, the log-rate at column `t`
coincides; the coupling term at `t` reads `y` only at column `t-1`; and
the first `dh` columns receive no history (and no coupling) contribution. -/
theorem c3_predict_causal (th : GLMTheta) (p : GLMParams) (t : ℕ)
    (y s y2 s2 : ℕ → ℕ → ℝ) (hdh : 1 ≤ p.dh)
    (hy : ∀ i u, u ≤ t → y i u = y2 i u)
    (hs : ∀ j u, u ≤ t → s j u = s2 j u) :
    (∀ i, glm_predict th p y s i t = glm_predict th p y2 s2 i t)
    ∧ (∀ (y3 : ℕ → ℕ → ℝ) i, (∀ j, y3 j (t - 1) = y j (t - 1)) →
        glm_weight p th.w y3 i t = glm_weight p th.w y i t)
    ∧ (∀ i, t < p.dh → glm_hist p th.h y i t = 0 ∧ glm_weight p th.w y i t = 0) := by
  refine ⟨?_, ?_, ?_⟩
  · intro i
    simp only [glm_predict, glm_weight, glm_hist]
    have h1 : (∑ j ∈ Finset.range p.ds, th.k i j * s j t)
        = ∑ j ∈ Finset.range p.ds, th.k i j * s2 j t :=
      Finset.sum_congr rfl fun j _ => by rw [hs j t le_rfl]
    have h2 : (if t < p.dh then (0:ℝ)
          else ∑ j ∈ Finset.range p.N_lim, th.w i j * y j (t - 1))
        = if t < p.dh then (0:ℝ)
          else ∑ j ∈ Finset.range p.N_lim, th.w i j * y2 j (t - 1) := by
      by_cases hc : t < p.dh
      · simp [hc]
      · simp only [hc, if_false]
        exact Finset.sum_congr rfl fun j _ => by
          rw [hy j (t - 1) (Nat.sub_le t 1)]
    have h3 : (if t < p.dh then (0:ℝ)
          else ∑ l ∈ Finset.range p.dh, th.h i l * y i (l + (t - p.dh)))
        = if t < p.dh then (0:ℝ)
          else ∑ l ∈ Finset.range p.dh, th.h i l * y2 i (l + (t - p.dh)) := by
      by_cases hc : t < p.dh
      · simp [hc]
      · simp only [hc, if_false]
        refine Finset.sum_congr rfl fun l hl => ?_
        have hl2 : l < p.dh := Finset.mem_range.mp hl
        rw [hy i (l + (t - p.dh)) (by omega)]
    rw [h1, h2, h3]
  · intro y3 i hagree
    simp only [glm_weight]
    by_cases hc : t < p.dh
    · simp [hc]
    · simp only [hc, if_false]
      exact Finset.sum_congr rfl fun j _ => by rw [hagree j]
  · intro i hc
    constructor
    · simp [glm_hist, hc]
    · simp [glm_weight, hc]

/-- Witness for C3: at `t = 0`, mutating all strictly future columns
(from the all-zero input to one that is 99 after column 0) leaves the
log-rate unchanged. -/
theorem c3_predict_causal_witness :
    glm_predict th0 p1 zf zf 0 0 = glm_predict th0 p1 yFut yFut 0 0 :=
  (c3_predict_causal th0 p1 0 zf zf yFut yFut (by norm_num [p1])
    (fun i u hu => by
      have hu0 : u = 0 := Nat.le_zero.mp hu
      subst hu0
      simp [zf, yFut])
    (fun j u hu => by
      have hu0 : u = 0 := Nat.le_zero.mp hu
      subst hu0
      simp [zf, yFut])).1 0

/-- For a window narrower than 10 columns, every round of the CBEM `_fit`
loop resets the membrane potential, so after at least one round the
carried `V` is the constant `-60` vector. -/
lemma cbem_loop_reset {O : Type} (p : GLMParams) (optStep : O → (ℕ → ℝ) → O)
    (getP : O → CbemTheta) (s : ℕ → ℕ → ℝ) (ycols : ℕ) (hyc : ycols < 10) :
    ∀ (r : ℕ) (th : O) (V : ℕ → ℝ), 1 ≤ r →
      (cbem_fit_loop p optStep getP s ycols r th V).2 = fun _ => (-60 : ℝ) := by
  intro r
  induction r with
  | zero => intro th V hr; omega
  | succ n ih =>
    intro th V _
    rcases Nat.eq_zero_or_pos n with h0 | h1
    · subst h0
      simp [cbem_fit_loop, cbem_fit_step, hyc]
    · have hstep := ih (optStep th V) (cbem_fit_step p (getP th) s ycols V) h1
      simpa [cbem_fit_loop] using hstep

/-- Claim C7 (amended).  The CBEM `fit` with `return_ll=False` returns the
carried membrane potential together with the FIRST column of the supplied
window `y[:, 0]` (the spike vector preceding the next window when the
window slides by one step) — not the final column.  The membrane carry is
real only for windows of width at least 10: for narrower windows every
round resets `V` to the constant `-60` vector, and for `rpf = 1` on a wide
window `V` advances by exactly one conductance step from the current θ. -/
theorem c7_fit_carry {O : Type} (p : GLMParams) (optStep : O → (ℕ → ℝ) → O)
    (getP : O → CbemTheta) (rpf : ℕ) (th : O) (y sM : PyMat) (V ycurr : ℕ → ℝ) :
    ((cbem_fit p optStep getP rpf th y sM V ycurr).2.2 = fun i => y.entry i 0)
    ∧ (1 ≤ rpf → y.cols < 10 →
        (cbem_fit p optStep getP rpf th y sM V ycurr).2.1 = fun _ => (-60 : ℝ))
    ∧ (rpf = 1 → 10 ≤ y.cols →
        (cbem_fit p optStep getP rpf th y sM V ycurr).2.1
          = cbem_v_step p (getP th) sM.entry V) := by
  refine ⟨rfl, ?_, ?_⟩
  · intro hr hyc
    simp only [cbem_fit]
    exact cbem_loop_reset p optStep getP sM.entry y.cols hyc rpf th V hr
  · intro hr hyc
    subst hr
    simp [cbem_fit, cbem_fit_loop, cbem_fit_step, Nat.not_lt.mpr hyc]

/-- Counterexample for C7: on a concrete 1-by-2 window with first column 5
and last column 7, the carry returned by the CBEM `fit` is the first
column (5), not the final column (7) as the claim states. -/
theorem c7_counterexample :
    (cbem_fit p1 (fun (_ : Unit) _ => ()) (fun _ => cbemTh0) 1 () y7 s7
        (fun _ => -60) (fun _ => 0)).2.2 0 ≠ y7.entry 0 (y7.cols - 1) := by
  show y7.entry 0 0 ≠ y7.entry 0 (y7.cols - 1)
  norm_num [y7]

/-- Witness for C7: the amended statement instantiated on a concrete
narrow window (`rpf = 1`, width 2): the returned carry is the reset
membrane vector. -/
theorem c7_fit_carry_witness :
    (cbem_fit p1 (fun (_ : Unit) _ => ()) (fun _ => cbemTh0) 1 () y7 s7
        (fun _ => -60) (fun _ => 0)).2.1 = fun _ => (-60 : ℝ) :=
  (c7_fit_carry p1 (fun (_ : Unit) _ => ()) (fun _ => cbemTh0) 1 () y7 s7
      (fun _ => -60) (fun _ => 0)).2.1 (by norm_num) (by norm_num [y7])


/-- The LNP `_check_arrays` advances `iter` by one. -/
lemma lnp_check_arraysSt_iter {O : Type} (st : LNPState O) (y s : PyMat)
    (st2 : LNPState O) (mn : ℕ) (y2 s2 : PyMat)
    (h : lnp_check_arraysSt st y s = .ok (st2, mn, y2, s2)) :
    st2.iter = st.iter + 1 := by
  simp only [lnp_check_arraysSt] at h
  repeat' split at h
  all_goals
    first
      | exact Except.noConfusion h
      | (simp only [Except.ok.injEq, Prod.mk.injEq] at h
         obtain ⟨hst, -⟩ := h
         subst hst
         rfl)

/-- The argument-selection phase of `GLMJaxSynthetic.fit` never touches
`iter`. -/
lemma glm_syn_args_iter {O : Type} (newRand : ℕ → ℕ) (st : GLMSynState O)
    (ind : Option PyMat) (args : ℕ × ℕ × PyMat × PyMat × PyMat)
    (st2 : GLMSynState O)
    (h : glm_syn_args newRand st ind = .ok (args, st2)) : st2.iter = st.iter := by
  simp only [glm_syn_args] at h
  repeat' split at h
  all_goals
    first
      | exact Except.noConfusion h
      | (simp only [Except.ok.injEq, Prod.mk.injEq] at h
         obtain ⟨-, hst⟩ := h
         subst hst
         rfl)

/-- An LNP `fit` call either raises the batch-regeneration
`AttributeError` or dispatches to the offline/online branch with a state
whose `iter` and `offline` flag are those of the caller. -/
lemma lnp_fit_cases {O : Type} (newRand : ℕ → ℕ)
    (gradStep : O → ℕ → ℕ × PyMat × PyMat → O) (st : LNPState O) (y s : PyMat)
    (res : Except PyErr (LNPState O))
    (h : lnp_fit newRand gradStep st y s = res) :
    res = .error .attributeError
    ∨ ∃ st1 : LNPState O, st1.iter = st.iter ∧ st1.offline = st.offline
        ∧ (if st1.offline then lnp_fit_offline gradStep st1
           else lnp_fit_online gradStep st1 y s) = res := by
  unfold lnp_fit at h
  by_cases hmod : st.iter % 10000 = 0
  · rw [if_pos hmod] at h
    cases hyd : st.ydata with
    | none =>
      rw [hyd] at h
      exact Or.inl h.symm
    | some yd =>
      rw [hyd] at h
      exact Or.inr ⟨{ st with rand := newRand, ydata := some yd }, rfl, rfl, h⟩
  · rw [if_neg hmod] at h
    exact Or.inr ⟨st, rfl, rfl, h⟩

/-- The offline branch of the LNP `fit` advances `iter` by one. -/
lemma lnp_fit_offline_iter {O : Type}
    (gradStep : O → ℕ → ℕ × PyMat × PyMat → O) (st1 st' : LNPState O)
    (h : lnp_fit_offline gradStep st1 = .ok st') : st'.iter = st1.iter + 1 := by
  unfold lnp_fit_offline at h
  rcases hyd : st1.ydata with _ | yd <;> rcases hsd : st1.sdata with _ | sd <;>
    rw [hyd, hsd] at h
  · exact Except.noConfusion h
  · exact Except.noConfusion h
  · exact Except.noConfusion h
  · injection h with h2
    subst h2
    rfl

/-- The online branch of the LNP `fit` advances `iter` by two (once in
`_check_arrays`, once in `fit`). -/
lemma lnp_fit_online_iter {O : Type}
    (gradStep : O → ℕ → ℕ × PyMat × PyMat → O) (st1 : LNPState O)
    (y s : PyMat) (st' : LNPState O)
    (h : lnp_fit_online gradStep st1 y s = .ok st') : st'.iter = st1.iter + 2 := by
  unfold lnp_fit_online at h
  rcases hck : lnp_check_arraysSt st1 y s with e | ⟨st2, mn, y2, s2⟩
  · rw [hck] at h
    exact Except.noConfusion h
  · rw [hck] at h
    injection h with h2
    subst h2
    have h3 := lnp_check_arraysSt_iter st1 y s st2 mn y2 s2 hck
    show st2.iter + 1 = st1.iter + 2
    omega

/-- Claim C5 (amended).  Iteration bookkeeping per `fit` call: the
synthetic GLM `fit` advances `iter` by exactly one in every windowing
mode, and its `_fit` applies the abstract gradient-plus-optimizer round
`rpf` times (`glm_fit_steps step rpf = step^[rpf]`); the LNP `fit`,
however, advances `iter` by TWO in online mode — `_check_arrays`
increments it and `fit` increments it again — and by one in offline mode
(where `_check_arrays` is not called). -/
theorem c5_iter_and_rpf :
    (∀ (O : Type) (newRand : ℕ → ℕ)
        (stepOf : (ℕ × ℕ × PyMat × PyMat × PyMat) → ℕ → O → O)
        (rl : Bool) (st : GLMSynState O) (ind : Option PyMat)
        (st' : GLMSynState O),
        glm_syn_fit newRand stepOf rl st ind = .ok st' →
        st'.iter = st.iter + 1)
    ∧ (∀ (O : Type) (newRand : ℕ → ℕ)
        (gradStep : O → ℕ → ℕ × PyMat × PyMat → O)
        (st : LNPState O) (y s : PyMat) (st' : LNPState O),
        st.offline = false → lnp_fit newRand gradStep st y s = .ok st' →
        st'.iter = st.iter + 2)
    ∧ (∀ (O : Type) (newRand : ℕ → ℕ)
        (gradStep : O → ℕ → ℕ × PyMat × PyMat → O)
        (st : LNPState O) (y s : PyMat) (st' : LNPState O),
        st.offline = true → lnp_fit newRand gradStep st y s = .ok st' →
        st'.iter = st.iter + 1)
    ∧ (∀ (O : Type) (step : O → O) (r : ℕ) (th : O),
        glm_fit_steps step r th = step^[r] th) := by
  refine ⟨?_, ?_, ?_, ?_⟩
  · intro O newRand stepOf rl st ind st' h
    unfold glm_syn_fit at h
    rcases heq : glm_syn_args newRand st ind with e | ⟨args, st2⟩
    · rw [heq] at h
      exact Except.noConfusion h
    · rw [heq] at h
      injection h with h2
      subst h2
      have h3 := glm_syn_args_iter newRand st ind args st2 heq
      show st2.iter + 1 = st.iter + 1
      omega
  · intro O newRand gradStep st y s st' hoff h
    rcases lnp_fit_cases newRand gradStep st y s (.ok st') h with habs | hbr
    · exact Except.noConfusion habs
    · obtain ⟨st1, hit1, hof1, hbr⟩ := hbr
      rw [hof1, hoff] at hbr
      simp only [Bool.false_eq_true, if_false] at hbr
      have h2 := lnp_fit_online_iter gradStep st1 y s st' hbr
      omega
  · intro O newRand gradStep st y s st' hoff h
    rcases lnp_fit_cases newRand gradStep st y s (.ok st') h with habs | hbr
    · exact Except.noConfusion habs
    · obtain ⟨st1, hit1, hof1, hbr⟩ := hbr
      rw [hof1, hoff] at hbr
      simp only [if_true] at hbr
      have h2 := lnp_fit_offline_iter gradStep st1 st' hbr
      omega
  · intro O step r
    induction r with
    | zero => intro th; rfl
    | succ n ih =>
      intro th
      have hstep : glm_fit_steps step (n + 1) th = glm_fit_steps step n (step th) := rfl
      rw [hstep, ih (step th), ← Function.iterate_succ_apply]

/-- Counterexample for C5: one online LNP fit call from a concrete state
with `iter = 1` succeeds and leaves `iter = 3`, advancing it by two, not
by one as the claim states. -/
theorem c5_counterexample :
    lnp_fit (fun _ => 0) (fun (_ : Unit) _ _ => ()) st5 y1 s1 = .ok st5After
    ∧ st5After.iter ≠ st5.iter + 1 := by
  constructor
  · rfl
  · norm_num [st5After, st5]

/-- Witness for C5: the amended online-mode statement instantiated at the
concrete state `st5`. -/
theorem c5_iter_and_rpf_witness : st5After.iter = st5.iter + 2 :=
  c5_iter_and_rpf.2.1 Unit (fun _ => 0) (fun _ _ _ => ()) st5 y1 s1 st5After
    rfl (by rfl)

/-- The GLM `_ll` decomposes as Poisson part plus `λ1·mean(|w|)/n` plus
`λ2·mean(w²)/(2n)`. -/
lemma glm_ll_decomp (th : GLMTheta) (p : GLMParams) (m n : ℕ)
    (y s ind : ℕ → ℕ → ℝ) :
    glm_ll th p m n y s ind = glm_poisson th p m n y s ind
      + p.lam1 * meanAbsW p th.w / (n : ℝ)
      + p.lam2 * meanSqW p th.w / (2 * (n : ℝ)) := rfl

/-- The LNP `_ll` decomposes as its correction-term Poisson part plus
`λ1·mean(|w|)` plus `λ2·mean(w²)`. -/
lemma lnp_ll_decomp (th : GLMTheta) (p : GLMParams) (mn : ℕ)
    (y s : ℕ → ℕ → ℝ) :
    lnp_ll th p mn y s = lnp_poisson th p mn y s
      + p.lam1 * meanAbsW p th.w + p.lam2 * meanSqW p th.w := rfl

/-- Claim C6 (amended).  The penalties added to the Poisson term are
`λ1·mean(|w|)/n + λ2·mean(w²)/(2n)` in the GLM variant and
`λ1·mean(|w|) + λ2·mean(w²)` in the LNP variant — two different
conventions, with the means taken over the full padded `N_lim × N_lim`
buffer, so the returned scalar does depend on the buffer padding size. -/
theorem c6_regularization :
    (∀ (th : GLMTheta) (p : GLMParams) (m n : ℕ) (y s ind : ℕ → ℕ → ℝ),
        glm_ll th p m n y s ind = glm_poisson th p m n y s ind
          + p.lam1 * meanAbsW p th.w / (n : ℝ)
          + p.lam2 * meanSqW p th.w / (2 * (n : ℝ)))
    ∧ (∀ (th : GLMTheta) (p : GLMParams) (mn : ℕ) (y s : ℕ → ℕ → ℝ),
        lnp_ll th p mn y s = lnp_poisson th p mn y s
          + p.lam1 * meanAbsW p th.w + p.lam2 * meanSqW p th.w) :=
  ⟨fun th p m n y s ind => glm_ll_decomp th p m n y s ind,
   fun th p mn y s => lnp_ll_decomp th p mn y s⟩

/-- Counterexample for C6: at a concrete input with `n = 2` and
`w[0,0] = 1`, the GLM `_ll` does NOT equal the Poisson part plus exactly
`λ1·mean(|w|) + λ2·mean(w²)` — the implemented penalties carry the extra
`1/n` and `1/(2n)` factors. -/
theorem c6_counterexample :
    glm_ll thW pS4 1 2 zf zf (fun _ _ => 1)
      ≠ glm_poisson thW pS4 1 2 zf zf (fun _ _ => 1)
        + pS4.lam1 * meanAbsW pS4 thW.w + pS4.lam2 * meanSqW pS4 thW.w := by
  have hm : meanAbsW pS4 thW.w = 1 := by
    simp [meanAbsW, pS4, thW, Finset.sum_range_succ]
  have hm2 : meanSqW pS4 thW.w = 1 := by
    simp [meanSqW, pS4, thW, Finset.sum_range_succ]
    decide
  rw [glm_ll_decomp, hm, hm2]
  intro heq
  simp only [pS4] at heq
  norm_num at heq

/-- A double sum over the full buffer ranges restricts to the real data
block when the summand vanishes outside the block. -/
lemma sum_range_block {NB MB N M : ℕ} (hN : N ≤ NB) (hM : M ≤ MB)
    (f : ℕ → ℕ → ℝ)
    (h0 : ∀ i t, i < NB → t < MB → (N ≤ i ∨ M ≤ t) → f i t = 0) :
    ∑ i ∈ Finset.range NB, ∑ t ∈ Finset.range MB, f i t
      = ∑ i ∈ Finset.range N, ∑ t ∈ Finset.range M, f i t := by
  have hrow : ∀ i, i < N →
      (∑ t ∈ Finset.range MB, f i t) = ∑ t ∈ Finset.range M, f i t := by
    intro i hi
    refine (Finset.sum_subset (Finset.range_subset.mpr hM) ?_).symm
    intro t htB htM
    exact h0 i t (lt_of_lt_of_le hi hN) (Finset.mem_range.mp htB)
      (Or.inr (le_of_not_lt fun hc => htM (Finset.mem_range.mpr hc)))
  calc ∑ i ∈ Finset.range NB, ∑ t ∈ Finset.range MB, f i t
      = ∑ i ∈ Finset.range N, ∑ t ∈ Finset.range MB, f i t := by
        refine (Finset.sum_subset (Finset.range_subset.mpr hN) ?_).symm
        intro i hiB hiN
        refine Finset.sum_eq_zero fun t htB => ?_
        exact h0 i t (Finset.mem_range.mp hiB) (Finset.mem_range.mp htB)
          (Or.inl (le_of_not_lt fun hc => hiN (Finset.mem_range.mpr hc)))
    _ = ∑ i ∈ Finset.range N, ∑ t ∈ Finset.range M, f i t :=
        Finset.sum_congr rfl fun i hi => hrow i (Finset.mem_range.mp hi)

/-- The log-rate of `_predict` is unchanged by enlarging the neuron buffer
when the spike data vanish outside the real block: the only `N_lim`
dependence is the coupling sum, whose extra terms multiply zero rows. -/
lemma glm_predict_agree (th : GLMTheta) (pS pB : GLMParams) (N M : ℕ)
    (y s : ℕ → ℕ → ℝ)
    (hds : pB.ds = pS.ds) (hdh : pB.dh = pS.dh) (hdt : pB.dt = pS.dt)
    (hNS : pS.N_lim = N) (hNB : N ≤ pB.N_lim)
    (hy : ∀ i t, N ≤ i ∨ M ≤ t → y i t = 0)
    (i t : ℕ) :
    glm_predict th pB y s i t = glm_predict th pS y s i t := by
  simp only [glm_predict, glm_weight, glm_hist, hds, hdh, hdt]
  have hw : (if t < pS.dh then (0:ℝ)
        else ∑ j ∈ Finset.range pB.N_lim, th.w i j * y j (t - 1))
      = if t < pS.dh then (0:ℝ)
        else ∑ j ∈ Finset.range pS.N_lim, th.w i j * y j (t - 1) := by
    by_cases hc : t < pS.dh
    · simp [hc]
    · simp only [hc, if_false]
      refine (Finset.sum_subset (Finset.range_subset.mpr (by omega)) ?_).symm
      intro j hjB hjN
      have hjge : N ≤ j := by
        by_contra hc2
        exact hjN (Finset.mem_range.mpr (by omega))
      rw [hy j (t - 1) (Or.inl hjge), mul_zero]
  rw [hw]

/-- Claim C4 (amended).  The Poisson part of the indicator-masked GLM
`_ll` is padding invariant: computing it over enlarged buffers with the
block indicator equals computing it over exactly-fitting buffers with an
all-ones indicator, whenever the data vanish outside the real block.
(Full `_ll` invariance fails because of the buffer-sized regularization
means, and the LNP correction-term variant is not padding invariant.) -/
theorem c4_poisson_padding_invariant (th : GLMTheta) (pS pB : GLMParams)
    (N M m n : ℕ) (y s : ℕ → ℕ → ℝ)
    (hds : pB.ds = pS.ds) (hdh : pB.dh = pS.dh) (hdt : pB.dt = pS.dt)
    (hNS : pS.N_lim = N) (hMS : pS.M_lim = M)
    (hNB : N ≤ pB.N_lim) (hMB : M ≤ pB.M_lim)
    (hy : ∀ i t, N ≤ i ∨ M ≤ t → y i t = 0) :
    glm_poisson th pB m n y s (fun i t => if i < N ∧ t < M then 1 else 0)
      = glm_poisson th pS m n y s (fun _ _ => 1) := by
  have hpred := glm_predict_agree th pS pB N M y s hds hdh hdt hNS hNB hy
  simp only [glm_poisson, hNS, hMS]
  have hexp : (∑ i ∈ Finset.range pB.N_lim, ∑ t ∈ Finset.range pB.M_lim,
        Real.exp (glm_predict th pB y s i t)
          * (if i < N ∧ t < M then (1:ℝ) else 0))
      = ∑ i ∈ Finset.range N, ∑ t ∈ Finset.range M,
          Real.exp (glm_predict th pS y s i t) * 1 := by
    rw [sum_range_block hNB hMB
      (fun i t => Real.exp (glm_predict th pB y s i t)
        * (if i < N ∧ t < M then (1:ℝ) else 0))
      (fun i t _ _ hor => by
        show Real.exp (glm_predict th pB y s i t)
            * (if i < N ∧ t < M then (1:ℝ) else 0) = 0
        rw [if_neg (by omega), mul_zero])]
    refine Finset.sum_congr rfl fun i hi => Finset.sum_congr rfl fun t ht => ?_
    rw [hpred i t, if_pos ⟨Finset.mem_range.mp hi, Finset.mem_range.mp ht⟩]
  have hspk : (∑ i ∈ Finset.range pB.N_lim, ∑ t ∈ Finset.range pB.M_lim,
        y i t * glm_predict th pB y s i t)
      = ∑ i ∈ Finset.range N, ∑ t ∈ Finset.range M,
          y i t * glm_predict th pS y s i t := by
    rw [sum_range_block hNB hMB
      (fun i t => y i t * glm_predict th pB y s i t)
      (fun i t _ _ hor => by
        show y i t * glm_predict th pB y s i t = 0
        rw [hy i t hor, zero_mul])]
    exact Finset.sum_congr rfl fun i hi => Finset.sum_congr rfl fun t ht => by
      rw [hpred i t]
  rw [hexp, hspk]

/-- Witness for C4: the amended invariance at a concrete configuration
(`N = M = 1` inside a `2 × 1` buffer). -/
theorem c4_poisson_padding_invariant_witness :
    glm_poisson thW pB4 1 1 zf zf (fun i t => if i < 1 ∧ t < 1 then 1 else 0)
      = glm_poisson thW pS4 1 1 zf zf (fun _ _ => 1) :=
  c4_poisson_padding_invariant thW pS4 pB4 1 1 1 1 zf zf rfl rfl rfl rfl rfl
    (by norm_num [pB4]) (by norm_num [pB4]) (fun i t _ => rfl)

/-- Counterexample for C4: padding is NOT invariant for the full `_ll` of
either variant.  GLM: with `w[0,0] = 1`, `λ1 = 1` and zero data, the
exactly-fitting computation gives 2 while the `N_lim = 2` padded
computation gives 5/4 (the `mean(|w|)` runs over the padded buffer).
LNP: with zero θ and zero data, the exactly-fitting value is 1 while the
padded value is 1/2 (the normalization divides by the buffer `N_lim`). -/
theorem c4_counterexample :
    glm_ll thW pB4 1 1 zf zf (fun i t => if i < 1 ∧ t < 1 then 1 else 0)
        ≠ glm_ll thW pS4 1 1 zf zf (fun _ _ => 1)
    ∧ lnp_ll th0 pB4 1 zf zf ≠ lnp_ll th0 pS4 1 zf zf := by
  constructor
  · have hB : glm_ll thW pB4 1 1 zf zf (fun i t => if i < 1 ∧ t < 1 then 1 else 0)
        = 5 / 4 := by
      simp [glm_ll, glm_poisson, glm_predict, glm_weight, glm_hist, meanAbsW,
        meanSqW, pB4, thW, zf, Finset.sum_range_succ, Real.exp_zero,
        Real.log_one, Finset.filter_eq']
      norm_num
    have hS : glm_ll thW pS4 1 1 zf zf (fun _ _ => 1) = 2 := by
      simp [glm_ll, glm_poisson, glm_predict, glm_weight, glm_hist, meanAbsW,
        meanSqW, pS4, thW, zf, Finset.sum_range_succ, Real.exp_zero,
        Real.log_one, Finset.filter_eq']
      norm_num
    rw [hB, hS]
    norm_num
  · have hB : lnp_ll th0 pB4 1 zf zf = 1 / 2 := by
      simp [lnp_ll, lnp_total, glm_weight, glm_hist, meanAbsW, meanSqW, pB4,
        th0, zf, Finset.sum_range_succ, Real.exp_zero, Real.log_one]
    have hS : lnp_ll th0 pS4 1 zf zf = 1 := by
      simp [lnp_ll, lnp_total, glm_weight, glm_hist, meanAbsW, meanSqW, pS4,
        th0, zf, Finset.sum_range_succ, Real.exp_zero, Real.log_one]
    rw [hB, hS]
    norm_num
